import Mathlib

/-!
Verification of the multi-platform social-media normalization engine
(`parse_all.py` and the five modules under `parsers/`).

Modelling conventions, used uniformly below:

* Raw API responses, items and emitted documents are JSON-like trees,
  modelled by `JVal`.  Python `dict`s are insertion-ordered association
  lists; `dict.get(k, d)` is `JVal.getD`.  Raw values are assumed to be of
  the type the code consumes them at (a type-mismatching raw value would
  make the Python builder raise inside its `try` and drop the document;
  no claim exercises that path).
* Wall-clock time: every builder takes the current time as an explicit
  `now : Int` (seconds since the Unix epoch).  An ISO-8601 timestamp
  string is modelled by the instant (epoch seconds) it denotes:
  `datetime.fromtimestamp(n).isoformat()` is the value `n` and
  `datetime.now().isoformat()` is the value `now`.
* Python float division compared against decimal literals (the reaction
  thresholds `0.3`, `0.2`) is modelled exactly on integers by
  cross-multiplication; `round(x, 2)` is modelled exactly on `ℚ` with
  round-half-to-even.
* `re` scans (`#(\w+)`, `@(\w+)`, the URL pattern) are modelled by
  explicit left-to-right scanners over the character list; `\w` under
  `re.UNICODE` is modelled on its ASCII fragment (letters, digits,
  underscore).  Python `str.lower` is likewise modelled on ASCII.
-/

namespace Socmed

/-- JSON-like value: the shape of raw platform responses and of the
documents the parsers emit.  Python dicts keep insertion order, hence
`obj` carries an ordered association list. -/
inductive JVal where
  | null
  | str (s : String)
  | int (n : Int)
  | rat (q : ℚ)
  | bool (b : Bool)
  | arr (elems : List JVal)
  | obj (fields : List (String × JVal))

/-- Key lookup in an object (`d[k]` / the hit case of `d.get(k)`).
Non-objects have no keys. -/
def JVal.lookup (j : JVal) (k : String) : Option JVal :=
  match j with
  | .obj fields => go fields
  | _ => none
where go : List (String × JVal) → Option JVal
  | [] => none
  | (k', v) :: rest => if k' = k then some v else go rest

/-- Python `d.get(k, default)`. -/
def JVal.getD (j : JVal) (k : String) (default : JVal) : JVal :=
  (j.lookup k).getD default

/-- `d.get(k, {})`, the pervasive pattern for optional sub-objects. -/
def JVal.getObj (j : JVal) (k : String) : JVal :=
  j.getD k (.obj [])

/-- `d.get(k, default)` consumed as a string. -/
def JVal.getStr (j : JVal) (k : String) (default : String) : String :=
  match j.lookup k with
  | some (.str s) => s
  | _ => default

/-- `d.get(k, default)` consumed as an integer counter. -/
def JVal.getInt (j : JVal) (k : String) (default : Int) : Int :=
  match j.lookup k with
  | some (.int n) => n
  | _ => default

/-- `d.get(k, default)` consumed as a boolean flag. -/
def JVal.getBool (j : JVal) (k : String) (default : Bool) : Bool :=
  match j.lookup k with
  | some (.bool b) => b
  | _ => default

/-- `d.get(k, [])` consumed as a list. -/
def JVal.getArr (j : JVal) (k : String) : List JVal :=
  match j.lookup k with
  | some (.arr xs) => xs
  | _ => []

/-- The top-level keys of an object, in insertion order. -/
def JVal.keys (j : JVal) : List String :=
  match j with
  | .obj fields => fields.map Prod.fst
  | _ => []

/-- Python truthiness of a raw value (`if x:`). -/
def JVal.truthy (j : JVal) : Bool :=
  match j with
  | .null => false
  | .str s => s ≠ ""
  | .int n => n ≠ 0
  | .rat q => q ≠ 0
  | .bool b => b
  | .arr xs => !xs.isEmpty
  | .obj fields => !fields.isEmpty

/-- Python `str(x)` for the scalar raw values the code renders
(`str(media_id)`, `str(user.get('pk', ...))`).  Compound values are
rendered as strings only inside `determine_media_type`, which is
modelled separately. -/
def JVal.toStr (j : JVal) : String :=
  match j with
  | .null => "None"
  | .str s => s
  | .int n => toString n
  | .rat q => toString q
  | .bool b => if b then "True" else "False"
  | .arr _ => ""
  | .obj _ => ""

/-- An integer raw value (reaction counters). -/
def JVal.toInt (j : JVal) : Int :=
  match j with
  | .int n => n
  | _ => 0

/-- `sum(d.values())` over an object with integer values
(`detect_emotions` in `facebook_parser.py`). -/
def JVal.sumValues (j : JVal) : Int :=
  match j with
  | .obj fields => fields.foldl (fun acc kv => acc + kv.2.toInt) 0
  | _ => 0

/-- Substring containment: Python `needle in haystack` on strings. -/
def hasSubstr (needle haystack : String) : Bool :=
  decide (needle.data <:+: haystack.data)

/-- `sum(1 for word in words if word in text)`: how many of the fixed
words occur as substrings of `text`. -/
def countHits (words : List String) (text : String) : Nat :=
  (words.filter (fun w => hasSubstr w text)).length

/-- `sum(1 for word in words if f' {word} ' in f' {text} ')`: the
whitespace-padded hit count used by the facebook language guess. -/
def countPaddedHits (words : List String) (text : String) : Nat :=
  (words.filter (fun w => hasSubstr (" " ++ w ++ " ") (" " ++ text ++ " "))).length

/-- A `\w` character of the extraction regexes, on the ASCII fragment of
`re.UNICODE`: letters, digits and underscore. -/
def isWordChar (c : Char) : Bool :=
  c.isAlphanum || c = '_'

theorem length_dropWhile_le_self (p : Char → Bool) :
    ∀ l : List Char, (l.dropWhile p).length ≤ l.length := by
  intro l
  induction l with
  | nil => simp [List.dropWhile]
  | cons x xs ih =>
    simp only [List.dropWhile]
    cases p x
    · simp
    · simp only [List.length_cons]
      omega

/-- Model of `re.findall` over the hashtag and mention patterns: scan left to right; at each
occurrence of the marker `c` followed by at least one word character,
emit the maximal word-character run and resume after it.  This is the
non-overlapping leftmost matching of the `re` engine. -/
def findTokens (c : Char) : List Char → List String
  | [] => []
  | x :: rest =>
    if x = c then
      match rest.takeWhile isWordChar with
      | [] => findTokens c rest
      | r :: un => String.mk (r :: un) :: findTokens c (rest.dropWhile isWordChar)
    else findTokens c rest
termination_by l => l.length
decreasing_by
  · simp
  · simp only [List.length_cons]
    exact Nat.lt_succ_of_le (length_dropWhile_le_self isWordChar _)
  · simp

/-- Python `str.lower` on the ASCII fragment (see the header note). -/
def pyLower (s : String) : String :=
  String.mk (s.data.map Char.toLower)

/-- One character of the URL regex's class in `extract_external_urls`
(`facebook_parser.py`).  The class is the union of `[a-zA-Z]`, `[0-9]`,
`[$-_@.&+]` (the range from `$` 0x24 to `_` 0x5F, which subsumes the
listed extras and `%`, making the `%hh` alternative redundant) and
`[!*\\(\\),]`. -/
def isUrlChar (c : Char) : Bool :=
  c.isAlpha || c.isDigit || ('$' ≤ c && c ≤ '_') ||
    c = '!' || c = '*' || c = '\\' || c = '(' || c = ')' || c = ','

/-- Strips the literal character prefix `ps`, returning the remainder on a
match. -/
def stripPrefixChars : List Char → List Char → Option (List Char)
  | [], l => some l
  | _ :: _, [] => none
  | p :: ps, x :: xs => if x = p then stripPrefixChars ps xs else none

/-- Matches the scheme part `http[s]?://` of the URL regex at the head of
the input; on success returns the matched characters and the remainder.
The optional `s` is tried greedily first, as the `re` engine does. -/
def matchScheme (l : List Char) : Option (List Char × List Char) :=
  match stripPrefixChars "http".data l with
  | none => none
  | some rest1 =>
    match stripPrefixChars "s://".data rest1, stripPrefixChars "://".data rest1 with
    | some r, _ => some ("https://".data, r)
    | none, some r => some ("http://".data, r)
    | none, none => none

theorem stripPrefixChars_length :
    ∀ (ps l r : List Char), stripPrefixChars ps l = some r →
      r.length + ps.length = l.length := by
  intro ps
  induction ps with
  | nil =>
    intro l r h
    simp only [stripPrefixChars, Option.some.injEq] at h
    subst h
    simp
  | cons p ps ih =>
    intro l r h
    cases l with
    | nil => simp [stripPrefixChars] at h
    | cons x xs =>
      simp only [stripPrefixChars] at h
      by_cases hx : x = p
      · rw [if_pos hx] at h
        have := ih xs r h
        simp only [List.length_cons]
        omega
      · rw [if_neg hx] at h
        exact absurd h (by simp)

theorem matchScheme_length (l scheme after : List Char)
    (h : matchScheme l = some (scheme, after)) : after.length + 7 ≤ l.length := by
  unfold matchScheme at h
  cases h4 : stripPrefixChars "http".data l with
  | none => rw [h4] at h; simp at h
  | some rest1 =>
    rw [h4] at h
    dsimp only at h
    have hl4 := stripPrefixChars_length _ _ _ h4
    cases h5 : stripPrefixChars "s://".data rest1 with
    | some r =>
      rw [h5] at h
      have hl5 := stripPrefixChars_length _ _ _ h5
      simp only [Option.some.injEq, Prod.mk.injEq] at h
      obtain ⟨-, h2⟩ := h
      subst h2
      simp [String.data] at hl4 hl5
      omega
    | none =>
      rw [h5] at h
      cases h6 : stripPrefixChars "://".data rest1 with
      | none => rw [h6] at h; simp at h
      | some r =>
        rw [h6] at h
        have hl6 := stripPrefixChars_length _ _ _ h6
        simp only [Option.some.injEq, Prod.mk.injEq] at h
        obtain ⟨-, h2⟩ := h
        subst h2
        simp [String.data] at hl4 hl6
        omega

/-- Auxiliary scanner for `str.split(sep)` with the nonempty separator
`c :: cs`: leftmost non-overlapping occurrences delimit the parts. -/
def splitOnNE (c : Char) (cs : List Char) : List Char → List (List Char)
  | [] => [[]]
  | x :: xs =>
    match h : stripPrefixChars (c :: cs) (x :: xs) with
    | some rest =>
      [] :: splitOnNE c cs rest
    | none =>
      match splitOnNE c cs xs with
      | [] => [[x]]
      | p :: ps => (x :: p) :: ps
termination_by l => l.length
decreasing_by
  · have := stripPrefixChars_length _ _ _ h
    simp only [List.length_cons] at this ⊢
    omega
  · simp

/-- Python `s.split(sep)` for a nonempty separator (the empty-separator
case raises in Python and never occurs here). -/
def pySplit (s sep : String) : List String :=
  match sep.data with
  | [] => [s]
  | c :: cs => (splitOnNE c cs s.data).map String.mk

/-- Auxiliary scanner for `str.replace(pat, rep)` with the nonempty
pattern `c :: cs`: leftmost non-overlapping occurrences are replaced. -/
def replaceNE (c : Char) (cs rep : List Char) : List Char → List Char
  | [] => []
  | x :: xs =>
    match h : stripPrefixChars (c :: cs) (x :: xs) with
    | some rest => rep ++ replaceNE c cs rep rest
    | none => x :: replaceNE c cs rep xs
termination_by l => l.length
decreasing_by
  · have := stripPrefixChars_length _ _ _ h
    simp only [List.length_cons] at this ⊢
    omega
  · simp

/-- Python `s.replace(pat, rep)` for a nonempty pattern. -/
def pyReplace (s pat rep : String) : String :=
  match pat.data with
  | [] => s
  | c :: cs => String.mk (replaceNE c cs rep.data s.data)

/-- `int(s)` on a digit string, with the digit-string test, as used by
the numeric `strptime` fields. -/
def natOfDigits (s : String) : Option Nat :=
  if s.data ≠ [] ∧ s.data.all Char.isDigit then
    some (s.data.foldl (fun acc c => acc * 10 + (c.toNat - 48)) 0)
  else none

/-- Model of `re.findall` over the URL pattern of `extract_external_urls`:
leftmost non-overlapping matches of `http[s]?://` followed by a maximal
nonempty run of URL characters; on a failed match the scan advances one
character. -/
def findUrls : List Char → List String
  | [] => []
  | x :: rest =>
    match h : matchScheme (x :: rest) with
    | some (scheme, after) =>
      match after.takeWhile isUrlChar with
      | [] => findUrls rest
      | r :: un => String.mk (scheme ++ r :: un) :: findUrls (after.dropWhile isUrlChar)
    | none => findUrls rest
termination_by l => l.length
decreasing_by
  · simp
  · have h2 := matchScheme_length _ _ _ h
    have h3 := length_dropWhile_le_self isUrlChar after
    simp only [List.length_cons] at h2 ⊢
    omega
  · simp

/-! ### Calendar arithmetic for `datetime.strptime` / `fromtimestamp` -/

def isLeap (y : Nat) : Bool :=
  (y % 4 == 0 && y % 100 != 0) || y % 400 == 0

def daysInMonth (y m : Nat) : Nat :=
  if m = 2 then (if isLeap y then 29 else 28)
  else if m = 4 ∨ m = 6 ∨ m = 9 ∨ m = 11 then 30 else 31

/-- Days from 1970-01-01 to `y-m-d` (proleptic Gregorian; valid for
`1 ≤ y`, where every intermediate quantity is nonnegative). -/
def daysFromCivil (y m d : Nat) : Int :=
  let yAdj : Int := if m ≤ 2 then (y : Int) - 1 else (y : Int)
  let era : Int := yAdj / 400
  let yoe : Int := yAdj - era * 400
  let mp : Int := ((m : Int) + 9) % 12
  let doy : Int := (153 * mp + 2) / 5 + (d : Int) - 1
  let doe : Int := yoe * 365 + yoe / 4 - yoe / 100 + doy
  era * 146097 + doe - 719468

def weekdayNames : List String := ["Mon", "Tue", "Wed", "Thu", "Fri", "Sat", "Sun"]

def monthNames : List String :=
  ["Jan", "Feb", "Mar", "Apr", "May", "Jun", "Jul", "Aug", "Sep", "Oct", "Nov", "Dec"]

/-- A one- or two-digit numeric field of `strptime`, range-checked. -/
def parseNat2 (s : String) (lo hi : Nat) : Option Nat :=
  if s.length = 0 ∨ s.length > 2 then none
  else match natOfDigits s with
    | some n => if lo ≤ n ∧ n ≤ hi then some n else none
    | none => none

/-- The `%H:%M:%S` field. -/
def parseTimeHMS (s : String) : Option (Nat × Nat × Nat) :=
  match pySplit s ":" with
  | [h, m, sec] =>
    match parseNat2 h 0 23, parseNat2 m 0 59, parseNat2 sec 0 61 with
    | some hh, some mm, some ss => some (hh, mm, ss)
    | _, _, _ => none
  | _ => none

/-- The `%z` field, on its `±HHMM` form (the form Twitter emits). -/
def parseTzOffset (s : String) : Option Int :=
  match s.data with
  | [sign, h1, h2, m1, m2] =>
    if (sign = '+' ∨ sign = '-') ∧ [h1, h2, m1, m2].all Char.isDigit then
      let hh := (h1.toNat - 48) * 10 + (h2.toNat - 48)
      let mm := (m1.toNat - 48) * 10 + (m2.toNat - 48)
      if hh ≤ 23 ∧ mm ≤ 59 then
        let secs : Int := hh * 3600 + mm * 60
        some (if sign = '-' then -secs else secs)
      else none
    else none
  | _ => none

/-- Model of `datetime.strptime(s, "%a %b %d %H:%M:%S %z %Y")` followed by
`.isoformat()`: the epoch seconds of the parsed aware datetime, or `none`
for the `ValueError` path.  The weekday token is checked for membership
but not for consistency with the date, as in CPython; whitespace handling
and the full `%z` grammar are approximated by the exact-single-space /
`±HHMM` forms Twitter emits. -/
def twitterStrptime (s : String) : Option Int :=
  match pySplit s " " with
  | [dow, mon, dd, hms, tz, yyyy] =>
    if !(weekdayNames.contains dow) then none
    else
      match monthNames.indexOf? mon, parseNat2 dd 1 31, parseTimeHMS hms,
          parseTzOffset tz, natOfDigits yyyy with
      | some mIdx, some d, some (hh, mm, ss), some off, some y =>
        if yyyy.length = 4 ∧ 1 ≤ y ∧ d ≤ daysInMonth y (mIdx + 1) then
          some (86400 * daysFromCivil y (mIdx + 1) d + 3600 * hh + 60 * mm + ss - off)
        else none
      | _, _, _, _, _ => none
  | _ => none

/-- Python `a or b` over raw values. -/
def pyOr (a b : JVal) : JVal :=
  if a.truthy then a else b

/-! ## `parsers/twitter_parser.py` -/

namespace Twitter

def positive_words : List String :=
  ["good", "great", "awesome", "amazing", "excellent", "happy", "love"]

def negative_words : List String :=
  ["bad", "terrible", "awful", "hate", "angry", "sad", "disappointed"]

/-- `analyze_sentiment` (twitter): substring hit counts over the
lowercased text; this variant has no empty-text guard. -/
def analyze_sentiment (text : String) : String :=
  let text_lower := pyLower text
  let positive_count := countHits positive_words text_lower
  let negative_count := countHits negative_words text_lower
  if positive_count > negative_count then "positive"
  else if negative_count > positive_count then "negative"
  else "neutral"

def emotion_keywords : List (String × List String) :=
  [("joy", ["happy", "joy", "excited", "amazing", "wonderful"]),
   ("anger", ["angry", "mad", "furious", "annoyed", "hate"]),
   ("sadness", ["sad", "depressed", "crying", "disappointed"]),
   ("fear", ["scared", "afraid", "worried", "anxious"]),
   ("surprise", ["wow", "amazing", "surprised", "unbelievable"]),
   ("love", ["love", "heart", "adore", "crush"])]

/-- `detect_emotions` (twitter): one tag per table row any of whose
keywords occurs in the lowercased text, in table order. -/
def detect_emotions (text : String) : List String :=
  let text_lower := pyLower text
  (emotion_keywords.filter fun ek => ek.2.any fun k => hasSubstr k text_lower).map Prod.fst

/-- `parse_twitter_timestamp`: strptime with the Twitter layout, falling
back to the current time on any parse failure (including empty input). -/
def parse_twitter_timestamp (now : Int) (timestamp_str : String) : Int :=
  match twitterStrptime timestamp_str with
  | some t => t
  | none => now

/-- `extract_geo_data`. -/
def extract_geo_data (tweet : JVal) : JVal :=
  let coordinates := tweet.getD "coordinates" .null
  let place := tweet.getD "place" .null
  .obj
    ((if coordinates.truthy then [("coordinates", coordinates)] else []) ++
     (if place.truthy then
        [("place", JVal.obj
          [("name", .str (place.getStr "full_name" "")),
           ("country", .str (place.getStr "country" "")),
           ("type", .str (place.getStr "place_type" ""))])]
      else []))

/-- The document dictionary built inside `create_tweet_document`
(`twitter_parser.py` lines 86-177), factored out so that claims can refer
to the document of a tweet that passes the id check. -/
def tweet_document (now : Int) (tweet : JVal) : JVal :=
  let legacy := tweet.getObj "legacy"
  let core := tweet.getObj "core"
  let user_results := core.getObj "user_results"
  let user := user_results.getObj "result"
  let user_legacy := user.getObj "legacy"
  let cores := user.getObj "core"
  let full_text0 := legacy.getStr "full_text" ""
  let note_tweet := tweet.getObj "note_tweet"
  let full_text :=
    if (note_tweet.getD "is_expandable" .null).truthy then
      let note_result := (note_tweet.getObj "note_tweet_results").getObj "result"
      if (note_result.getD "text" .null).truthy then note_result.getStr "text" ""
      else full_text0
    else full_text0
  let created_at := legacy.getStr "created_at" ""
  let timestamp := parse_twitter_timestamp now created_at
  let metrics := JVal.obj
    [("like_count", legacy.getD "favorite_count" (.int 0)),
     ("retweet_count", legacy.getD "retweet_count" (.int 0)),
     ("reply_count", legacy.getD "reply_count" (.int 0)),
     ("quote_count", legacy.getD "quote_count" (.int 0)),
     ("bookmark_count", legacy.getD "bookmark_count" (.int 0)),
     ("view_count", (tweet.getObj "views").getD "count" (.int 0))]
  let user_info := JVal.obj
    [("id", user.getD "rest_id" (.str "")),
     ("username", pyOr (cores.getD "screen_name" (.str "")) (user_legacy.getD "screen_name" (.str ""))),
     ("display_name", pyOr (cores.getD "name" (.str "")) (user_legacy.getD "name" (.str ""))),
     ("followers_count", user_legacy.getD "followers_count" (.int 0)),
     ("friends_count", user_legacy.getD "friends_count" (.int 0)),
     ("verified", (user.getObj "verification").getD "verified" (.bool false)),
     ("profile_image_url", (user.getObj "avatar").getD "image_url" (.str "")),
     ("description", user_legacy.getD "description" (.str "")),
     ("location", (user.getObj "location").getD "location" (.str ""))]
  let entities := legacy.getObj "entities"
  let hashtags := (entities.getArr "hashtags").map fun tag => JVal.str (tag.getStr "text" "")
  let mentions := (entities.getArr "user_mentions").map fun m => JVal.str (m.getStr "screen_name" "")
  let urls := (entities.getArr "urls").map fun u => JVal.str (u.getStr "expanded_url" "")
  let extended_entities := legacy.getObj "extended_entities"
  let media :=
    if (extended_entities.getD "media" .null).truthy then
      (extended_entities.getArr "media").map fun m => JVal.obj
        [("type", .str (m.getStr "type" "")),
         ("url", .str (m.getStr "media_url_https" "")),
         ("id", .str (m.getStr "id_str" ""))]
    else []
  let sentiment := analyze_sentiment full_text
  JVal.obj
    [("platform", .str "twitter"),
     ("platform_id", tweet.getD "rest_id" (.str "")),
     ("content", .str full_text),
     ("author", user_info),
     ("timestamp", .int timestamp),
     ("created_at", .str created_at),
     ("metrics", metrics),
     ("hashtags", .arr hashtags),
     ("mentions", .arr mentions),
     ("urls", .arr urls),
     ("media", .arr media),
     ("language", legacy.getD "lang" (.str "")),
     ("sentiment", .str sentiment),
     ("emotions", .arr ((detect_emotions full_text).map .str)),
     ("is_retweet", legacy.getD "retweeted" (.bool false)),
     ("is_quote", legacy.getD "is_quote_status" (.bool false)),
     ("conversation_id", legacy.getD "conversation_id_str" (.str "")),
     ("source", .str "twitter"),
     ("possibly_sensitive", legacy.getD "possibly_sensitive" (.bool false)),
     ("geo", extract_geo_data tweet),
     ("analyzed_at", .int now),
     ("raw_data", tweet)]

/-- `create_tweet_document`: builds the document, then drops it when
`tweet.get('rest_id', '')` is falsy (missing or empty id). -/
def create_tweet_document (now : Int) (tweet : JVal) : Option JVal :=
  let document := tweet_document now tweet
  if !(tweet.getD "rest_id" (.str "")).truthy then none else some document

/-- `extract_tweets_from_timeline`: the timeline-of-entries tree walk. -/
def extract_tweets_from_timeline (data : JVal) : List JVal :=
  let timeline := ((data.getObj "data").getObj "result").getObj "timeline"
  let instructions := timeline.getArr "instructions"
  instructions.flatMap fun instruction =>
    if instruction.getStr "type" "" = "TimelineAddEntries" then
      (instruction.getArr "entries").flatMap fun entry =>
        let content := entry.getObj "content"
        if content.getStr "entryType" "" = "TimelineTimelineItem" then
          let item_content := content.getObj "itemContent"
          if item_content.getStr "itemType" "" = "TimelineTweet" then
            let tweet := (item_content.getObj "tweet_results").getObj "result"
            if tweet.truthy then [tweet] else []
          else []
        else if content.getStr "entryType" "" = "TimelineTimelineModule" then
          (content.getArr "items").flatMap fun item =>
            let item_content := (item.getObj "item").getObj "itemContent"
            if item_content.getStr "itemType" "" = "TimelineTweet" then
              let tweet := (item_content.getObj "tweet_results").getObj "result"
              if tweet.truthy then [tweet] else []
            else []
        else []
    else []

/-- `parse_twitter_json`: extract, build, keep the non-dropped documents. -/
def parse_twitter_json (now : Int) (data : JVal) : List JVal :=
  (extract_tweets_from_timeline data).filterMap (create_tweet_document now)

end Twitter

/-- Python 3 `round` to an integer: round-half-to-even. -/
def roundHalfEven (q : ℚ) : ℤ :=
  let f := ⌊q⌋
  let r := q - f
  if r < 1 / 2 then f
  else if r > 1 / 2 then f + 1
  else if Even f then f else f + 1

/-- Python `round(x, 2)` (modelled exactly on `ℚ`; the Python code rounds
the IEEE float value). -/
def round2 (q : ℚ) : ℚ :=
  (roundHalfEven (q * 100) : ℚ) / 100

/-- The field list of an object (`d.items()`). -/
def JVal.items (j : JVal) : List (String × JVal) :=
  match j with
  | .obj fields => fields
  | _ => []

/-! ## `parsers/facebook_parser.py` -/

namespace Facebook

/-- `extract_hashtags`: `re.findall(r'#(\w+)', text, re.UNICODE)` behind
an empty-text guard. -/
def extract_hashtags (text : String) : List String :=
  if text = "" then [] else findTokens '#' text.data

/-- `extract_mentions`: `re.findall(r'@(\w+)', text, re.UNICODE)` behind
an empty-text guard. -/
def extract_mentions (text : String) : List String :=
  if text = "" then [] else findTokens '@' text.data

/-- `extract_external_urls`: the optional `external_url` and
`attached_post_url` raw values, then the regex-found URLs in the
message. -/
def extract_external_urls (post : JVal) : List JVal :=
  let external_url := post.getD "external_url" .null
  let attached_post_url := post.getD "attached_post_url" .null
  let message := post.getStr "message" ""
  (if external_url.truthy then [external_url] else []) ++
  (if attached_post_url.truthy then [attached_post_url] else []) ++
  (if message ≠ "" then (findUrls message.data).map .str else [])

/-- `extract_media_info`. -/
def extract_media_info (post : JVal) : JVal :=
  let image := post.getD "image" .null
  let video := post.getD "video" .null
  let video_files := post.getD "video_files" .null
  let album_preview := post.getD "album_preview" .null
  let video_thumbnail := post.getD "video_thumbnail" .null
  .obj
    ((if image.truthy then
        [("image", JVal.obj
          [("url", .str (image.getStr "uri" "")),
           ("width", image.getD "width" (.int 0)),
           ("height", image.getD "height" (.int 0)),
           ("id", image.getD "id" (.str ""))])]
      else []) ++
     (if video.truthy then
        [("video", JVal.obj
          [("url", .str (video.getStr "url" "")),
           ("thumbnail", video.getD "thumbnail" (.str "")),
           ("duration", video.getD "duration" (.int 0))])]
      else []) ++
     (if video_files.truthy then [("video_files", video_files)] else []) ++
     (if album_preview.truthy then [("album_preview", album_preview)] else []) ++
     (if video_thumbnail.truthy then [("video_thumbnail", video_thumbnail)] else []))

/-- `determine_post_type`: fixed priority order over the presence (and
truthiness) of media sub-objects. -/
def determine_post_type (post : JVal) : String :=
  if (post.getD "video" .null).truthy then "video"
  else if (post.getD "video_files" .null).truthy then "video"
  else if (post.getD "image" .null).truthy then "image"
  else if (post.getD "album_preview" .null).truthy then "album"
  else if (post.getD "external_url" .null).truthy then "link"
  else if (post.getD "attached_post" .null).truthy then "shared_post"
  else if (post.getD "attached_event" .null).truthy then "event"
  else "text"

def positive_words : List String :=
  ["love", "amazing", "great", "awesome", "wonderful", "excellent", "happy",
   "good", "nice", "best", "perfect"]

def negative_words : List String :=
  ["hate", "terrible", "awful", "bad", "worst", "angry", "sad", "disappointed",
   "horrible", "annoying"]

/-- `analyze_sentiment` (facebook), with the empty-text guard. -/
def analyze_sentiment (text : String) : String :=
  if text = "" then "neutral"
  else
    let text_lower := pyLower text
    let positive_count := countHits positive_words text_lower
    let negative_count := countHits negative_words text_lower
    if positive_count > negative_count then "positive"
    else if negative_count > positive_count then "negative"
    else "neutral"

def emotion_keywords : List (String × List String) :=
  [("joy", ["happy", "joy", "excited", "amazing", "wonderful", "celebrate"]),
   ("love", ["love", "heart", "adore", "beautiful", "sweet"]),
   ("anger", ["angry", "mad", "furious", "annoyed", "frustrated"]),
   ("sadness", ["sad", "depressed", "crying", "disappointed", "heartbroken"]),
   ("surprise", ["wow", "amazing", "surprised", "unbelievable", "shocking"]),
   ("fear", ["scared", "afraid", "worried", "anxious", "terrified"]),
   ("humor", ["funny", "hilarious", "joke", "comedy", "lol", "haha"])]

/-- The text-keyword pass of `detect_emotions` (facebook): the `if text:`
block appending one tag per matching table row, in table order. -/
def text_emotions (text : String) : List String :=
  if text = "" then []
  else
    let text_lower := pyLower text
    (emotion_keywords.filter fun ek => ek.2.any fun k => hasSubstr k text_lower).map Prod.fst

/-- The reaction-share pass of `detect_emotions` (facebook): the
`if reactions:` block.  A float comparison `x / total > 0.3` (resp.
`> 0.2`) is modelled exactly as `10 * x > 3 * total` (resp.
`5 * x > total`). -/
def reaction_emotions (reactions : JVal) : List String :=
  if reactions.truthy then
    let total_reactions := reactions.sumValues
    if total_reactions > 0 then
      (if 10 * (reactions.getD "love" (.int 0)).toInt > 3 * total_reactions then ["love"] else []) ++
      (if 10 * (reactions.getD "haha" (.int 0)).toInt > 3 * total_reactions then ["humor"] else []) ++
      (if 5 * (reactions.getD "angry" (.int 0)).toInt > total_reactions then ["anger"] else []) ++
      (if 5 * (reactions.getD "sad" (.int 0)).toInt > total_reactions then ["sadness"] else []) ++
      (if 10 * (reactions.getD "wow" (.int 0)).toInt > 3 * total_reactions then ["surprise"] else [])
    else []
  else []

/-- `detect_emotions` (facebook): text keywords, then reaction shares,
then `list(set(...))`.  The CPython set iteration order is unspecified;
it is modelled by `List.dedup`, and claims rely only on membership and
duplicate-freedom. -/
def detect_emotions (text : String) (reactions : JVal) : List String :=
  (text_emotions text ++ reaction_emotions reactions).dedup

def indonesian_words : List String :=
  ["dan", "yang", "untuk", "dengan", "dari", "ini", "itu", "tidak", "ada",
   "saya", "kita", "mereka"]

def english_words : List String :=
  ["and", "the", "to", "of", "a", "in", "for", "is", "on", "that", "you",
   "it", "with", "as"]

/-- `detect_language` (facebook): whitespace-padded word hits over the
lowercased text. -/
def detect_language (text : String) : String :=
  if text = "" then "unknown"
  else
    let text_lower := pyLower text
    let indonesian_count := countPaddedHits indonesian_words text_lower
    let english_count := countPaddedHits english_words text_lower
    if indonesian_count > english_count then "id"
    else if english_count > indonesian_count then "en"
    else "mixed"

/-- `create_post_document` (`facebook_parser.py` lines 53-160).  The
model has no exception path, so the `except: return None` branch is
unreachable and the builder is total. -/
def create_post_document (now : Int) (post : JVal) : JVal :=
  let post_id := post.getD "post_id" (.str "")
  let message := post.getStr "message" ""
  let message_rich := post.getD "message_rich" (.str message)
  let url := post.getD "url" (.str "")
  let timestamp_unix := post.getD "timestamp" (.int 0)
  let timestamp : Int :=
    match timestamp_unix with
    | .int n => if n > 0 then n else now
    | _ => now
  let author := post.getObj "author"
  let user_info := JVal.obj
    [("id", author.getD "id" (.str "")),
     ("name", author.getD "name" (.str "")),
     ("url", author.getD "url" (.str "")),
     ("profile_image_url", author.getD "profile_picture_url" (.str ""))]
  let reactions := post.getObj "reactions"
  let metrics := JVal.obj
    [("reactions_count", post.getD "reactions_count" (.int 0)),
     ("comments_count", post.getD "comments_count" (.int 0)),
     ("shares_count", post.getD "reshare_count" (.int 0)),
     ("like_count", reactions.getD "like" (.int 0)),
     ("love_count", reactions.getD "love" (.int 0)),
     ("wow_count", reactions.getD "wow" (.int 0)),
     ("haha_count", reactions.getD "haha" (.int 0)),
     ("sad_count", reactions.getD "sad" (.int 0)),
     ("angry_count", reactions.getD "angry" (.int 0)),
     ("care_count", reactions.getD "care" (.int 0))]
  let total_reactions := (post.getD "reactions_count" (.int 0)).toInt
  let reaction_breakdown :=
    if total_reactions > 0 then
      JVal.obj (reactions.items.map fun kv =>
        (kv.1 ++ "_percentage",
         JVal.rat (round2 ((kv.2.toInt : ℚ) / (total_reactions : ℚ) * 100))))
    else .obj []
  let media_info := extract_media_info post
  let hashtags := extract_hashtags message
  let mentions := extract_mentions message
  let external_urls := extract_external_urls post
  let post_type := determine_post_type post
  let sentiment := analyze_sentiment message
  let emotions := detect_emotions message reactions
  let total_engagements :=
    (post.getD "reactions_count" (.int 0)).toInt +
    (post.getD "comments_count" (.int 0)).toInt +
    (post.getD "reshare_count" (.int 0)).toInt
  let metadata := JVal.obj
    [("author_title", post.getD "author_title" .null),
     ("comments_id", post.getD "comments_id" (.str "")),
     ("shares_id", post.getD "shares_id" (.str "")),
     ("text_format_metadata", post.getD "text_format_metadata" .null)]
  JVal.obj
    [("platform", .str "facebook"),
     ("platform_id", post_id),
     ("content", .str message),
     ("content_rich", message_rich),
     ("author", user_info),
     ("timestamp", .int timestamp),
     ("created_timestamp", timestamp_unix),
     ("url", url),
     ("metrics", metrics),
     ("reaction_breakdown", reaction_breakdown),
     ("total_engagements", .int total_engagements),
     ("hashtags", .arr (hashtags.map .str)),
     ("mentions", .arr (mentions.map .str)),
     ("external_urls", .arr external_urls),
     ("media_info", media_info),
     ("post_type", .str post_type),
     ("sentiment", .str sentiment),
     ("emotions", .arr (emotions.map .str)),
     ("language", .str (detect_language message)),
     ("metadata", metadata),
     ("analyzed_at", .int now),
     ("raw_data", post)]

/-- `extract_posts_from_data`: the `results` array filtered to items whose
`type` discriminator is `post`. -/
def extract_posts_from_data (data : JVal) : List JVal :=
  ((data.getObj "data").getArr "results").filter fun post =>
    post.getStr "type" "" = "post"

/-- `parse_facebook_json`. -/
def parse_facebook_json (now : Int) (data : JVal) : List JVal :=
  (extract_posts_from_data data).map (create_post_document now)

end Facebook

/-- A raw list value (`for x in l` over a raw value known to be a list). -/
def JVal.toArr (j : JVal) : List JVal :=
  match j with
  | .arr xs => xs
  | _ => []

mutual
/-- Model of Python `tok in str(d).lower()` for a single word `tok`
(`determine_media_type` in `instagram_parser.py`): the token occurs in
some lowercased key or string value of the tree.  A word token cannot
straddle the quote and punctuation boundaries of the `str()` rendering,
so this captures the substring test exactly for such tokens. -/
def containsToken (tok : String) : JVal → Bool
  | .str s => hasSubstr tok (pyLower s)
  | .arr xs => containsTokenArr tok xs
  | .obj fields => containsTokenObj tok fields
  | _ => false

def containsTokenArr (tok : String) : List JVal → Bool
  | [] => false
  | x :: xs => containsToken tok x || containsTokenArr tok xs

def containsTokenObj (tok : String) : List (String × JVal) → Bool
  | [] => false
  | (k, v) :: fields =>
    hasSubstr tok (pyLower k) || containsToken tok v || containsTokenObj tok fields
end

/-! ## `parsers/instagram_parser.py` -/

namespace Instagram

/-- `extract_caption`: the `caption` object, else the
`edge_media_to_caption` edges, else `accessibility_caption`. -/
def extract_caption (media : JVal) : String :=
  match media.lookup "caption" with
  | some caption_obj =>
    match caption_obj with
    | .obj _ => caption_obj.getStr "text" ""
    | _ => if caption_obj.truthy then caption_obj.toStr else ""
  | none =>
    match media.lookup "edge_media_to_caption" with
    | some e =>
      match e.getArr "edges" with
      | [] => ""
      | edge :: _ => (edge.getObj "node").getStr "text" ""
    | none =>
      match media.lookup "accessibility_caption" with
      | some (.str s) => s
      | some _ => ""
      | none => ""

/-- `determine_media_type`: fixed priority order of video indicators, the
numeric `media_type` discriminator, the `__typename` substring checks,
and the `'clips' in str(media).lower()` fallback. -/
def determine_media_type (media : JVal) : String :=
  if (media.getD "video_duration" .null).truthy || (media.getD "is_video" .null).truthy ||
      (media.lookup "video_url").isSome then "video"
  else
    match media.lookup "media_type" with
    | some (.int 1) => "image"
    | some (.int 2) => "video"
    | some (.int 8) => "carousel"
    | _ =>
      let typename := media.getStr "__typename" ""
      if hasSubstr "Video" typename then "video"
      else if hasSubstr "Image" typename then "image"
      else if containsToken "clips" media then "clips"
      else "image"

/-- `extract_media_urls`. -/
def extract_media_urls (media : JVal) : List JVal :=
  let image_urls :=
    match media.lookup "image_versions2" with
    | some iv =>
      (iv.getArr "candidates").map fun candidate => JVal.obj
        [("type", .str "image"),
         ("url", .str (candidate.getStr "url" "")),
         ("width", candidate.getD "width" (.int 0)),
         ("height", candidate.getD "height" (.int 0))]
    | none => []
  match media.lookup "video_versions" with
  | some vv =>
    image_urls ++ vv.toArr.map fun version => JVal.obj
      [("type", .str "video"),
       ("url", .str (version.getStr "url" "")),
       ("width", version.getD "width" (.int 0)),
       ("height", version.getD "height" (.int 0)),
       ("type_name", version.getD "type" (.str ""))]
  | none =>
    match media.lookup "display_url" with
    | some display_url =>
      image_urls ++ [JVal.obj
        [("type", .str "image"),
         ("url", display_url),
         ("width", (media.getObj "dimensions").getD "width" (.int 0)),
         ("height", (media.getObj "dimensions").getD "height" (.int 0))]]
    | none => image_urls

/-- `extract_hashtags` (instagram). -/
def extract_hashtags (text : String) : List String :=
  if text = "" then [] else findTokens '#' text.data

/-- `extract_mentions` (instagram). -/
def extract_mentions (text : String) : List String :=
  if text = "" then [] else findTokens '@' text.data

/-- `extract_location`. -/
def extract_location (media : JVal) : JVal :=
  match media.lookup "location" with
  | some loc =>
    if loc.truthy then
      .obj
        [("id", loc.getD "pk" (.str "")),
         ("name", loc.getD "name" (.str "")),
         ("short_name", loc.getD "short_name" (.str "")),
         ("address", loc.getD "address" (.str "")),
         ("city", loc.getD "city" (.str "")),
         ("lng", loc.getD "lng" .null),
         ("lat", loc.getD "lat" .null)]
    else locationFallback media
  | none => locationFallback media
where locationFallback (media : JVal) : JVal :=
  match media.lookup "lng", media.lookup "lat" with
  | some lng, some lat => .obj [("lng", lng), ("lat", lat)]
  | _, _ => .obj []

def positive_words : List String :=
  ["love", "amazing", "beautiful", "perfect", "awesome", "great", "happy", "good"]

def negative_words : List String :=
  ["bad", "terrible", "awful", "hate", "angry", "sad", "disappointed", "worst"]

/-- `analyze_sentiment` (instagram), with the empty-text guard. -/
def analyze_sentiment (text : String) : String :=
  if text = "" then "neutral"
  else
    let text_lower := pyLower text
    let positive_count := countHits positive_words text_lower
    let negative_count := countHits negative_words text_lower
    if positive_count > negative_count then "positive"
    else if negative_count > positive_count then "negative"
    else "neutral"

/-- The emotion table of `detect_emotions` (instagram); the three
mojibake keyword entries are reproduced verbatim from the source. -/
def emotion_keywords : List (String × List String) :=
  [("joy", ["happy", "joy", "excited", "amazing", "wonderful", "love"]),
   ("love", ["love", "heart", "adore", "crush", "‚ù§Ô∏è", "üíï", "üíñ"]),
   ("excitement", ["excited", "wow", "amazing", "incredible", "awesome"]),
   ("gratitude", ["thank", "grateful", "blessed", "appreciate"]),
   ("inspiration", ["inspired", "motivation", "goals", "dream"])]

/-- `detect_emotions` (instagram), with the empty-text guard. -/
def detect_emotions (text : String) : List String :=
  if text = "" then []
  else
    let text_lower := pyLower text
    (emotion_keywords.filter fun ek => ek.2.any fun k => hasSubstr k text_lower).map Prod.fst

/-- `create_media_document` (`instagram_parser.py` lines 75-179).  Note
that the timestamp branch has no positivity guard: an absent
`taken_at`/`device_timestamp` defaults to the integer `0`, which passes
the `isinstance` check and is rendered as `datetime.fromtimestamp(0)`,
and that the document carries no `language` key. -/
def create_media_document (now : Int) (media : JVal) : JVal :=
  let media_id := media.getD "id" (media.getD "pk" (.str ""))
  let media_code := media.getD "code" (.str "")
  let caption := extract_caption media
  let user0 := media.getObj "user"
  let user := if !user0.truthy then media.getObj "owner" else user0
  let user_info := JVal.obj
    [("id", .str (user.getD "pk" (user.getD "id" (.str ""))).toStr),
     ("username", user.getD "username" (.str "")),
     ("display_name", user.getD "full_name" (user.getD "name" (.str ""))),
     ("followers_count", user.getD "follower_count" (.int 0)),
     ("following_count", user.getD "following_count" (.int 0)),
     ("verified", user.getD "is_verified" (.bool false)),
     ("profile_image_url", user.getD "profile_pic_url" (.str "")),
     ("is_private", user.getD "is_private" (.bool false)),
     ("is_business", user.getD "is_business_account" (.bool false)),
     ("biography", user.getD "biography" (.str ""))]
  let taken_at := media.getD "taken_at" (media.getD "device_timestamp" (.int 0))
  let timestamp : Int :=
    match taken_at with
    | .int n => n
    | _ => now
  let metrics := JVal.obj
    [("like_count", media.getD "like_count" (.int 0)),
     ("comment_count", media.getD "comment_count" (.int 0)),
     ("play_count", media.getD "play_count" (.int 0)),
     ("repost_count", media.getD "media_repost_count" (.int 0)),
     ("share_count", media.getD "reshare_count" (.int 0))]
  let media_type := determine_media_type media
  let media_urls := extract_media_urls media
  let hashtags := extract_hashtags caption
  let mentions := extract_mentions caption
  let location := extract_location media
  let is_video := ["clips", "video", "reel"].contains media_type
  let video_data :=
    if is_video then
      JVal.obj
        [("duration", media.getD "video_duration" (.int 0)),
         ("view_count", media.getD "view_count" (.int 0)),
         ("play_count", media.getD "play_count" (.int 0)),
         ("has_audio", media.getD "has_audio" (.bool true))]
    else .obj []
  let sentiment := analyze_sentiment caption
  let emotions := detect_emotions caption
  JVal.obj
    [("platform", .str "instagram"),
     ("platform_id", .str media_id.toStr),
     ("content", .str caption),
     ("author", user_info),
     ("timestamp", .int timestamp),
     ("metrics", metrics),
     ("hashtags", .arr (hashtags.map .str)),
     ("mentions", .arr (mentions.map .str)),
     ("media_type", .str media_type),
     ("media_urls", .arr media_urls),
     ("is_video", .bool is_video),
     ("video_data", video_data),
     ("location", location),
     ("sentiment", .str sentiment),
     ("emotions", .arr (emotions.map .str)),
     ("has_liked", media.getD "has_liked" (.bool false)),
     ("can_see_insights_as_brand", media.getD "can_see_insights_as_brand" (.bool false)),
     ("code", media_code),
     ("filter_type", media.getD "filter_type" (.int 0)),
     ("lng", media.getD "lng" .null),
     ("lat", media.getD "lat" .null),
     ("analyzed_at", .int now),
     ("raw_data", media)]

/-- `extract_media_from_grid`: the media-grid section walk. -/
def extract_media_from_grid (data : JVal) : List JVal :=
  let sections := ((data.getObj "data").getObj "media_grid").getArr "sections"
  sections.flatMap fun sec =>
    let layout_content := sec.getObj "layout_content"
    match layout_content.lookup "one_by_two_item" with
    | some obi =>
      ((obi.getObj "clips").getArr "items").flatMap fun item =>
        let media := item.getObj "media"
        if media.truthy then [media] else []
    | none =>
      match layout_content.lookup "two_by_two_items" with
      | some tbt =>
        tbt.toArr.flatMap fun item =>
          let media := item.getObj "media"
          if media.truthy then [media] else []
      | none =>
        match layout_content.lookup "medias" with
        | some medias => medias.toArr
        | none => []

/-- `parse_instagram_json`. -/
def parse_instagram_json (now : Int) (data : JVal) : List JVal :=
  (extract_media_from_grid data).map (create_media_document now)

end Instagram

/-! ## `parsers/tiktok_parser.py` -/

namespace Tiktok

/-- `extract_hashtags` (tiktok). -/
def extract_hashtags (text : String) : List String :=
  if text = "" then [] else findTokens '#' text.data

/-- `extract_mentions` (tiktok). -/
def extract_mentions (text : String) : List String :=
  if text = "" then [] else findTokens '@' text.data

/-- `extract_challenges`. -/
def extract_challenges (video : JVal) : List JVal :=
  (video.getArr "challenges").map fun challenge => JVal.obj
    [("id", challenge.getD "id" (.str "")),
     ("title", challenge.getD "title" (.str "")),
     ("desc", challenge.getD "desc" (.str "")),
     ("cover", challenge.getD "coverLarger" (.str "")),
     ("is_commerce", challenge.getD "isCommerce" (.bool false))]

/-- `extract_effects`. -/
def extract_effects (video : JVal) : List JVal :=
  (video.getArr "effectStickers").map fun effect => JVal.obj
    [("id", effect.getD "ID" (.str "")),
     ("name", effect.getD "name" (.str "")),
     ("icon", effect.getD "iconUrl" (.str "")),
     ("owner_id", effect.getD "ownerId" (.str "")),
     ("owner_username", effect.getD "ownerUsername" (.str ""))]

def positive_words : List String :=
  ["love", "amazing", "fun", "cool", "awesome", "great", "happy", "good", "nice", "best"]

def negative_words : List String :=
  ["bad", "terrible", "awful", "hate", "angry", "sad", "disappointed", "worst", "boring"]

/-- `analyze_sentiment` (tiktok), with the empty-text guard. -/
def analyze_sentiment (text : String) : String :=
  if text = "" then "neutral"
  else
    let text_lower := pyLower text
    let positive_count := countHits positive_words text_lower
    let negative_count := countHits negative_words text_lower
    if positive_count > negative_count then "positive"
    else if negative_count > positive_count then "negative"
    else "neutral"

def emotion_keywords : List (String × List String) :=
  [("joy", ["happy", "joy", "fun", "excited", "amazing", "wonderful", "laugh"]),
   ("love", ["love", "heart", "adore", "crush", "❤️", "💕"]),
   ("excitement", ["excited", "wow", "amazing", "incredible", "awesome", "omg"]),
   ("humor", ["funny", "lol", "haha", "hilarious", "joke", "comedy"]),
   ("inspiration", ["inspired", "motivation", "goals", "dream", "believe"]),
   ("creativity", ["creative", "art", "design", "diy", "tutorial"]),
   ("energy", ["energy", "power", "strong", "fierce", "bold"])]

/-- `detect_emotions` (tiktok), with the empty-text guard. -/
def detect_emotions (text : String) : List String :=
  if text = "" then []
  else
    let text_lower := pyLower text
    (emotion_keywords.filter fun ek => ek.2.any fun k => hasSubstr k text_lower).map Prod.fst

def categories : List (String × List String) :=
  [("dance", ["dance", "dancing", "choreography", "moves", "dancechallenge"]),
   ("comedy", ["funny", "comedy", "joke", "humor", "meme", "viral", "hilarious"]),
   ("education", ["tutorial", "how", "learn", "education", "tips", "diy", "howto"]),
   ("lifestyle", ["lifestyle", "daily", "routine", "life", "vlog", "day"]),
   ("food", ["food", "cooking", "recipe", "eat", "delicious", "foodie"]),
   ("fashion", ["fashion", "outfit", "style", "clothing", "ootd", "fashiontok"]),
   ("beauty", ["beauty", "makeup", "skincare", "beautytips", "cosmetics"]),
   ("fitness", ["fitness", "workout", "exercise", "gym", "health", "fit"]),
   ("music", ["music", "singing", "song", "cover", "musician", "musictok"]),
   ("pets", ["pet", "dog", "cat", "animal", "cute", "petsoftiktok"]),
   ("travel", ["travel", "trip", "vacation", "explore", "traveltok"]),
   ("gaming", ["gaming", "game", "gamer", "videogames", "esports"])]

/-- `determine_category` (tiktok): hashtag membership first (`keyword in
hashtags_lower` is list membership), then description substring, then the
original-music fallback, else `general`. -/
def determine_category (desc : String) (hashtags : List String) (music_info : JVal) : String :=
  let text_lower := pyLower desc
  let hashtags_lower := hashtags.map pyLower
  match categories.find? fun ck => ck.2.any fun k => hashtags_lower.contains k with
  | some ck => ck.1
  | none =>
    match categories.find? fun ck => ck.2.any fun k => hasSubstr k text_lower with
    | some ck => ck.1
    | none =>
      if (music_info.getD "original" (.bool false)).truthy then "music" else "general"

def indonesian_words : List String :=
  ["dan", "yang", "untuk", "dengan", "dari", "ini", "itu", "tidak", "ada", "saya"]

def english_words : List String :=
  ["and", "the", "to", "of", "a", "in", "for", "is", "on", "that"]

/-- `detect_language` (tiktok): substring hits over the lowercased text. -/
def detect_language (text : String) : String :=
  if text = "" then "unknown"
  else
    let text_lower := pyLower text
    let indonesian_count := countHits indonesian_words text_lower
    let english_count := countHits english_words text_lower
    if indonesian_count > english_count then "id"
    else if english_count > indonesian_count then "en"
    else "mixed"

/-- `create_video_document` (`tiktok_parser.py` lines 55-179): the only
builder that wraps the canonical fields in an Elasticsearch envelope
(`_index` / `_id` / `_score` / `_source`).  The `_score` float `1.0` is
the rational `1`. -/
def create_video_document (now : Int) (video : JVal) : JVal :=
  let video_id := video.getD "id" (.str "")
  let desc := video.getStr "desc" ""
  let create_time := video.getD "createTime" (.int 0)
  let timestamp : Int :=
    match create_time with
    | .int n => if n > 0 then n else now
    | _ => now
  let author := video.getObj "author"
  let user_info := JVal.obj
    [("id", author.getD "id" (.str "")),
     ("username", author.getD "uniqueId" (.str "")),
     ("display_name", author.getD "nickname" (.str "")),
     ("followers_count", author.getD "followerCount" (.int 0)),
     ("following_count", author.getD "followingCount" (.int 0)),
     ("verified", author.getD "verified" (.bool false)),
     ("profile_image_url", author.getD "avatarLarger" (author.getD "avatarMedium" (.str ""))),
     ("signature", author.getD "signature" (.str "")),
     ("is_private", author.getD "privateAccount" (.bool false))]
  let stats := video.getObj "stats"
  let metrics := JVal.obj
    [("view_count", stats.getD "playCount" (.int 0)),
     ("like_count", stats.getD "diggCount" (.int 0)),
     ("comment_count", stats.getD "commentCount" (.int 0)),
     ("share_count", stats.getD "shareCount" (.int 0)),
     ("download_count", stats.getD "downloadCount" (.int 0)),
     ("collect_count", stats.getD "collectCount" (.int 0))]
  let video_info := video.getObj "video"
  let video_data := JVal.obj
    [("duration", video_info.getD "duration" (.int 0)),
     ("height", video_info.getD "height" (.int 0)),
     ("width", video_info.getD "width" (.int 0)),
     ("ratio", video_info.getD "ratio" (.str "")),
     ("bitrate", video_info.getD "bitrate" (.int 0)),
     ("format", video_info.getD "format" (.str "")),
     ("quality", video_info.getD "videoQuality" (.str "")),
     ("codec", video_info.getD "codecType" (.str "")),
     ("cover", video_info.getD "cover" (.str "")),
     ("dynamic_cover", video_info.getD "dynamicCover" (.str "")),
     ("play_url", video_info.getD "playAddr" (.str "")),
     ("download_url", video_info.getD "downloadAddr" (.str ""))]
  let music := video.getObj "music"
  let music_info := JVal.obj
    [("id", music.getD "id" (.str "")),
     ("title", music.getD "title" (.str "")),
     ("author", music.getD "authorName" (.str "")),
     ("original", music.getD "original" (.bool false)),
     ("duration", music.getD "duration" (.int 0)),
     ("play_url", music.getD "playUrl" (.str "")),
     ("cover", music.getD "coverLarge" (music.getD "coverMedium" (.str "")))]
  let hashtags := extract_hashtags desc
  let mentions := extract_mentions desc
  let challenges := extract_challenges video
  let effects := extract_effects video
  let sentiment := analyze_sentiment desc
  let emotions := detect_emotions desc
  let category := determine_category desc hashtags music_info
  let like_count := (stats.getD "diggCount" (.int 0)).toInt
  let comment_count := (stats.getD "commentCount" (.int 0)).toInt
  let share_count := (stats.getD "shareCount" (.int 0)).toInt
  let view_count := (stats.getD "playCount" (.int 0)).toInt
  let total_engagements := like_count + comment_count + share_count
  let engagement_rate : ℚ :=
    if view_count > 0 then
      ((total_engagements : ℚ) / (max view_count 1 : Int)) * 100
    else 0
  JVal.obj
    [("_index", .str "social_media_posts"),
     ("_id", .str ("tiktok_" ++ video_id.toStr)),
     ("_score", .rat 1),
     ("_source", JVal.obj
       [("platform", .str "tiktok"),
        ("platform_id", video_id),
        ("content", .str desc),
        ("author", user_info),
        ("timestamp", .int timestamp),
        ("created_time", create_time),
        ("metrics", metrics),
        ("video_data", video_data),
        ("music_info", music_info),
        ("hashtags", .arr (hashtags.map .str)),
        ("mentions", .arr (mentions.map .str)),
        ("challenges", .arr challenges),
        ("effects", .arr effects),
        ("sentiment", .str sentiment),
        ("emotions", .arr (emotions.map .str)),
        ("category", .str category),
        ("engagement_rate", .rat (round2 engagement_rate)),
        ("language", .str (detect_language desc)),
        ("is_ad", video.getD "isAd" (.bool false)),
        ("duet_enabled", video.getD "duetEnabled" (.bool true)),
        ("stitch_enabled", video.getD "stitchEnabled" (.bool true)),
        ("comment_enabled", .bool (!(video.getD "commentDisabled" (.bool false)).truthy)),
        ("analyzed_at", .int now),
        ("raw_data", video)])]

/-- `extract_videos_from_data` (tiktok): the `data.data` array filtered to
entries with the numeric video discriminator `type == 1`, keeping their
truthy `item` payloads. -/
def extract_videos_from_data (data : JVal) : List JVal :=
  ((data.getObj "data").getArr "data").flatMap fun item =>
    match item.lookup "type" with
    | some (.int 1) =>
      let video_item := item.getObj "item"
      if video_item.truthy then [video_item] else []
    | _ => []

/-- `parse_tiktok_json`. -/
def parse_tiktok_json (now : Int) (data : JVal) : List JVal :=
  (extract_videos_from_data data).map (create_video_document now)

end Tiktok

/-! ## `parsers/youtube_parser.py` -/

namespace Youtube

/-- `extract_video_id`: `videoId`, else the navigation endpoint, else the
`watch?v=` capture from the `link` field. -/
def extract_video_id (video : JVal) : String :=
  let video_id := video.getStr "videoId" ""
  let video_id :=
    if video_id = "" then
      ((video.getObj "navigationEndpoint").getObj "watchEndpoint").getStr "videoId" ""
    else video_id
  if video_id = "" then
    let link := video.getStr "link" ""
    if hasSubstr "watch?v=" link then
      (pySplit ((pySplit link "watch?v=").getD 1 "") "&").headD ""
    else video_id
  else video_id

/-- Stable insertion of `x` into a descending-sorted list: `x` goes in
front of the first strictly smaller key, after equal keys. -/
def insertDescBy (key : JVal → Int) (x : JVal) : List JVal → List JVal
  | [] => [x]
  | y :: ys => if key x ≥ key y then x :: y :: ys else y :: insertDescBy key x ys

/-- Model of Python `sorted(l, key=key, reverse=True)`: a stable
descending sort (equal keys keep their original relative order). -/
def sortDescBy (key : JVal → Int) : List JVal → List JVal
  | [] => []
  | x :: xs => insertDescBy key x (sortDescBy key xs)

/-- `get_avatar_url`: highest avatar by height (stable descending sort),
then its `url`. -/
def get_avatar_url (avatar_list : List JVal) : String :=
  match sortDescBy (fun a => (a.getD "height" (.int 0)).toInt) avatar_list with
  | [] => ""
  | best :: _ => best.getStr "url" ""

/-- `is_verified_channel`. -/
def is_verified_channel (badges : List JVal) : Bool :=
  badges.any fun badge =>
    badge.getStr "type" "" = "VERIFIED_CHANNEL" || badge.getStr "text" "" = "Verified"

/-- `extract_thumbnails`. -/
def extract_thumbnails (video : JVal) : List JVal :=
  (video.getArr "thumbnails").map fun thumb => JVal.obj
    [("url", .str (thumb.getStr "url" "")),
     ("width", thumb.getD "width" (.int 0)),
     ("height", thumb.getD "height" (.int 0))]

/-- Python `f-string` `02d` padding. -/
def pad2 (n : Int) : String :=
  if 0 ≤ n ∧ n < 10 then "0" ++ toString n else toString n

/-- `format_duration`: `MM:SS` under an hour, `HH:MM:SS` from an hour up.
Python `//` and `%` are floor division and nonnegative remainder for
the positive divisors used here, matching `Int` division. -/
def format_duration (seconds : Int) : String :=
  if seconds = 0 then "00:00"
  else
    let hours := seconds / 3600
    let minutes := (seconds % 3600) / 60
    let secs := seconds % 60
    if hours > 0 then pad2 hours ++ ":" ++ pad2 minutes ++ ":" ++ pad2 secs
    else pad2 minutes ++ ":" ++ pad2 secs

/-- `parse_youtube_timestamp`.  Each relative-unit branch is written as
`now - datetime.timedelta(...)` in the source, but the module imports the
*class* `datetime` (`from datetime import datetime`), so the attribute
access `datetime.timedelta` raises `AttributeError` (and when the text
has no digit, the preceding `int(re.findall(...)[0])` raises
`IndexError` first); the bare `except:` then returns
`datetime.now().isoformat()`.  The branches are kept explicit here, with
`none` standing for the raised exception the `except:` turns into `now`. -/
def parse_youtube_timestamp (now : Int) (published_time_text : String) : Int :=
  let tryResult : Option Int :=
    if published_time_text = "" then some now
    else if hasSubstr "day" published_time_text then none
    else if hasSubstr "week" published_time_text then none
    else if hasSubstr "month" published_time_text then none
    else if hasSubstr "year" published_time_text then none
    else if hasSubstr "hour" published_time_text then none
    else if hasSubstr "minute" published_time_text then none
    else some now
  match tryResult with
  | some t => t
  | none => now

/-- `extract_hashtags` (youtube). -/
def extract_hashtags (text : String) : List String :=
  if text = "" then [] else findTokens '#' text.data

/-- `extract_mentions` (youtube). -/
def extract_mentions (text : String) : List String :=
  if text = "" then [] else findTokens '@' text.data

def categories : List (String × List String) :=
  [("music", ["music", "song", "audio", "album", "artist", "band", "cover", "acoustic", "lyric"]),
   ("gaming", ["gaming", "game", "gameplay", "playthrough", "walkthrough", "review", "trailer"]),
   ("education", ["tutorial", "how to", "learn", "education", "course", "lesson", "guide", "tips"]),
   ("entertainment", ["comedy", "funny", "humor", "entertainment", "show", "movie", "film"]),
   ("vlog", ["vlog", "daily", "life", "routine", "day in the life", "personal"]),
   ("news", ["news", "breaking", "report", "update", "current events", "politics"]),
   ("sports", ["sports", "football", "basketball", "soccer", "olympics", "match", "game"]),
   ("technology", ["tech", "technology", "review", "unboxing", "gadget", "smartphone", "computer"]),
   ("cooking", ["cooking", "recipe", "food", "kitchen", "chef", "baking", "meal"]),
   ("travel", ["travel", "trip", "vacation", "tour", "destination", "adventure"]),
   ("fashion", ["fashion", "style", "outfit", "clothing", "beauty", "makeup"]),
   ("fitness", ["fitness", "workout", "exercise", "health", "gym", "training"]),
   ("diy", ["diy", "craft", "handmade", "build", "create", "project"]),
   ("podcast", ["podcast", "interview", "discussion", "talk", "conversation"])]

/-- `determine_category` (youtube): first bucket with a substring hit in
the lowercased title-plus-description, else `general`. -/
def determine_category (title description : String) : String :=
  let content := pyLower (title ++ " " ++ description)
  match categories.find? fun ck => ck.2.any fun k => hasSubstr k content with
  | some ck => ck.1
  | none => "general"

def positive_words : List String :=
  ["great", "amazing", "awesome", "excellent", "fantastic", "wonderful", "love",
   "best", "perfect", "incredible"]

def negative_words : List String :=
  ["terrible", "awful", "horrible", "worst", "hate", "bad", "disappointing",
   "failed", "disaster"]

/-- `analyze_sentiment` (youtube), with the empty-text guard. -/
def analyze_sentiment (text : String) : String :=
  if text = "" then "neutral"
  else
    let text_lower := pyLower text
    let positive_count := countHits positive_words text_lower
    let negative_count := countHits negative_words text_lower
    if positive_count > negative_count then "positive"
    else if negative_count > positive_count then "negative"
    else "neutral"

def emotion_keywords : List (String × List String) :=
  [("excitement", ["excited", "amazing", "incredible", "awesome", "wow"]),
   ("joy", ["happy", "joy", "fun", "cheerful", "delighted"]),
   ("love", ["love", "adore", "beautiful", "gorgeous", "wonderful"]),
   ("curiosity", ["discover", "explore", "learn", "find out", "reveal"]),
   ("inspiration", ["inspired", "motivate", "achieve", "success", "dream"]),
   ("humor", ["funny", "hilarious", "comedy", "joke", "laugh"]),
   ("surprise", ["surprise", "unexpected", "shocking", "unbelievable"]),
   ("nostalgia", ["memories", "nostalgic", "remember", "throwback", "classic"])]

/-- `detect_emotions` (youtube), with the empty-text guard. -/
def detect_emotions (text : String) : List String :=
  if text = "" then []
  else
    let text_lower := pyLower text
    (emotion_keywords.filter fun ek => ek.2.any fun k => hasSubstr k text_lower).map Prod.fst

def indonesian_words : List String :=
  ["dan", "yang", "untuk", "dengan", "dari", "ini", "itu", "tidak", "ada",
   "saya", "video", "channel"]

def english_words : List String :=
  ["and", "the", "to", "of", "a", "in", "for", "is", "on", "that", "video",
   "channel", "subscribe"]

/-- `detect_language` (youtube): substring hits over the lowercased text. -/
def detect_language (text : String) : String :=
  if text = "" then "unknown"
  else
    let text_lower := pyLower text
    let indonesian_count := countHits indonesian_words text_lower
    let english_count := countHits english_words text_lower
    if indonesian_count > english_count then "id"
    else if english_count > indonesian_count then "en"
    else "mixed"

/-- `create_video_document` (`youtube_parser.py` lines 55-148). -/
def create_video_document (now : Int) (video : JVal) : JVal :=
  let video_id := extract_video_id video
  let title := video.getStr "title" ""
  let description := video.getStr "descriptionSnippet" ""
  let author := video.getObj "author"
  let channel_info := JVal.obj
    [("id", author.getD "channelId" (.str "")),
     ("title", author.getD "title" (.str "")),
     ("username",
      if (author.getD "canonicalBaseUrl" .null).truthy then
        .str (pyReplace (author.getStr "canonicalBaseUrl" "") "/@" "")
      else .str ""),
     ("profile_image_url", .str (get_avatar_url (author.getArr "avatar"))),
     ("badges", author.getD "badges" (.arr [])),
     ("is_verified", .bool (is_verified_channel (author.getArr "badges")))]
  let stats := video.getObj "stats"
  let metrics := JVal.obj [("view_count", stats.getD "views" (.int 0))]
  let duration_seconds := video.getD "lengthSeconds" (.int 0)
  let duration_formatted := format_duration duration_seconds.toInt
  let thumbnails := extract_thumbnails video
  let published_time := video.getStr "publishedTimeText" ""
  let timestamp := parse_youtube_timestamp now published_time
  let badges := video.getD "badges" (.arr [])
  let is_live := video.getD "isLiveNow" (.bool false)
  let moving_thumbnails := video.getD "movingThumbnails" (.arr [])
  let full_content := title ++ " " ++ description
  let sentiment := analyze_sentiment full_content
  let emotions := detect_emotions full_content
  let hashtags := extract_hashtags description
  let mentions := extract_mentions description
  let category := determine_category title description
  let video_url :=
    if video_id ≠ "" then "https://www.youtube.com/watch?v=" ++ video_id else ""
  JVal.obj
    [("platform", .str "youtube"),
     ("platform_id", .str video_id),
     ("content", .str full_content),
     ("title", .str title),
     ("description", .str description),
     ("author", channel_info),
     ("timestamp", .int timestamp),
     ("published_time_text", .str published_time),
     ("url", .str video_url),
     ("metrics", metrics),
     ("duration_seconds", duration_seconds),
     ("duration_formatted", .str duration_formatted),
     ("thumbnails", .arr thumbnails),
     ("moving_thumbnails", moving_thumbnails),
     ("badges", badges),
     ("is_live", is_live),
     ("hashtags", .arr (hashtags.map .str)),
     ("mentions", .arr (mentions.map .str)),
     ("sentiment", .str sentiment),
     ("emotions", .arr (emotions.map .str)),
     ("category", .str category),
     ("language", .str (detect_language full_content)),
     ("content_type", .str "video"),
     ("analyzed_at", .int now),
     ("raw_data", video)]

/-- `extract_videos_from_data` (youtube): the `data.contents` array
filtered to entries whose `type` is `video`, keeping their truthy
`video` payloads. -/
def extract_videos_from_data (data : JVal) : List JVal :=
  ((data.getObj "data").getArr "contents").flatMap fun content =>
    if content.getStr "type" "" = "video" then
      let video := content.getObj "video"
      if video.truthy then [video] else []
    else []

/-- `parse_youtube_json`. -/
def parse_youtube_json (now : Int) (data : JVal) : List JVal :=
  (extract_videos_from_data data).map (create_video_document now)

end Youtube

/-! ## `parse_all.py` — `SocialMediaParser.generate_summary_report`

The summary dictionary is modelled by a structure whose fields carry the
keys of the Python dict (the nested `summary` sub-dictionary is
flattened into the `most_active_platform` / `total_engagement` /
`platforms_processed` fields, and `generated_at` is the `now` instant).
-/

/-- `d.get(k, default)` over an accumulator dictionary with integer
values. -/
def dictGet (d : List (String × Int)) (k : String) (default : Int) : Int :=
  match d with
  | [] => default
  | (k', v) :: rest => if k' = k then v else dictGet rest k default

/-- `d[k] = v` over an accumulator dictionary: updates the existing entry
in place or appends a new key at the end, as Python dict assignment
does. -/
def dictSet (d : List (String × Int)) (k : String) (v : Int) : List (String × Int) :=
  match d with
  | [] => [(k, v)]
  | (k', v') :: rest => if k' = k then (k', v) :: rest else (k', v') :: dictSet rest k v

/-- `d[k] = d.get(k, 0) + 1`. -/
def dictIncr (d : List (String × Int)) (k : String) : List (String × Int) :=
  dictSet d k (dictGet d k 0 + 1)

/-- The platform-aware engagement increment of one document
(`parse_all.py` lines 167-177). -/
def engagement_increment (platform : String) (metrics : JVal) : Int :=
  if platform = "twitter" then
    metrics.getInt "like_count" 0 + metrics.getInt "retweet_count" 0
  else if platform = "instagram" then
    metrics.getInt "like_count" 0 + metrics.getInt "comment_count" 0
  else if platform = "tiktok" then
    metrics.getInt "like_count" 0 + metrics.getInt "share_count" 0
  else if platform = "facebook" then
    metrics.getInt "reactions_count" 0 + metrics.getInt "comments_count" 0
  else if platform = "youtube" then
    metrics.getInt "view_count" 0
  else 0

/-- One iteration of the per-document loop of `generate_summary_report`:
note that every field is read from `doc.get('_source', {})`. -/
def summary_fold_doc (platform : String)
    (state : List (String × Int) × List (String × Int) × Int) (doc : JVal) :
    List (String × Int) × List (String × Int) × Int :=
  let source := doc.getD "_source" (.obj [])
  let sentiment := source.getStr "sentiment" "neutral"
  let sentiments := dictIncr state.1 sentiment
  let lang := source.getStr "language" "unknown"
  let languages := dictIncr state.2.1 lang
  let metrics := source.getObj "metrics"
  (sentiments, languages, state.2.2 + engagement_increment platform metrics)

/-- The per-platform record of the `platform_stats` dictionary. -/
structure PlatformStats where
  document_count : Nat
  sentiment_breakdown : List (String × Int)
  language_breakdown : List (String × Int)
  total_engagement : Int
  avg_engagement : ℚ

/-- One entry of `platform_stats`: the tallying branch for a nonempty
document list, the zero record otherwise. -/
def platform_stats_entry (platform : String) (documents : List JVal) : PlatformStats :=
  if documents.isEmpty then
    { document_count := 0
      sentiment_breakdown := [("positive", 0), ("negative", 0), ("neutral", 0)]
      language_breakdown := []
      total_engagement := 0
      avg_engagement := 0 }
  else
    let res := documents.foldl (summary_fold_doc platform)
      ([("positive", 0), ("negative", 0), ("neutral", 0)], ([] : List (String × Int)), (0 : Int))
    { document_count := documents.length
      sentiment_breakdown := res.1
      language_breakdown := res.2.1
      total_engagement := res.2.2
      avg_engagement := round2 ((res.2.2 : ℚ) / (documents.length : ℚ)) }

/-- Python `max(keys, key=f)`: the running maximum is replaced only on a
strictly greater key value, so the first maximal element wins. -/
def pyMaxKeys (f : String → Int) : List String → Option String
  | [] => none
  | k :: ks => some (ks.foldl (fun best y => if f y > f best then y else best) k)

/-- The summary report record. -/
structure SummaryReport where
  generated_at : Int
  total_documents : Nat
  platforms : List (String × PlatformStats)
  most_active_platform : Option String
  total_engagement : Int
  platforms_processed : Nat

/-- `generate_summary_report` over an insertion-ordered `results`
mapping.  `max(platform_stats.keys(), ...) if platform_stats else None`
is `pyMaxKeys` (which is `none` exactly on the empty mapping). -/
def generate_summary_report (now : Int) (results : List (String × List JVal)) :
    SummaryReport :=
  let total_documents := (results.map fun r => r.2.length).sum
  let platform_stats := results.map fun r => (r.1, platform_stats_entry r.1 r.2)
  let countOf : String → Int := fun k =>
    ((platform_stats.lookup k).map fun s => (s.document_count : Int)).getD 0
  { generated_at := now
    total_documents := total_documents
    platforms := platform_stats
    most_active_platform := pyMaxKeys countOf (platform_stats.map Prod.fst)
    total_engagement := (platform_stats.map fun p => p.2.total_engagement).sum
    platforms_processed := (platform_stats.filter fun p => p.2.document_count > 0).length }

/-- The registry insertion order of `SocialMediaParser.__init__`
(`parse_all.py` lines 23-30), which is also the platform order of
`parse_all_examples`. -/
def registryOrder : List String :=
  ["twitter", "instagram", "tiktok", "facebook", "youtube"]

/-! ## Claim theorems -/

/-- C7: `format_duration` renders `lengthSeconds = 125` as `"02:05"` and
`lengthSeconds = 0` as `"00:00"`; generally durations under one hour are
rendered as zero-padded `MM:SS` and durations of an hour or more as
`HH:MM:SS`. -/
theorem C7_format_duration_mmss_hhmmss :
    Youtube.format_duration 125 = "02:05" ∧
    Youtube.format_duration 0 = "00:00" ∧
    (∀ s : Int, 0 ≤ s → s < 3600 →
      Youtube.format_duration s =
        Youtube.pad2 (s / 60) ++ ":" ++ Youtube.pad2 (s % 60)) ∧
    (∀ s : Int, 3600 ≤ s →
      Youtube.format_duration s =
        Youtube.pad2 (s / 3600) ++ ":" ++ Youtube.pad2 ((s % 3600) / 60) ++ ":" ++
          Youtube.pad2 (s % 60)) := by
  refine ⟨rfl, rfl, ?_, ?_⟩
  · intro s h0 h3
    by_cases hs : s = 0
    · subst hs
      rfl
    · have h1 : s / 3600 = 0 := by omega
      have h2 : s % 3600 = s := by omega
      simp only [Youtube.format_duration, if_neg hs, h1, h2]
      rw [if_neg (by omega)]
  · intro s h36
    have hs : ¬(s = 0) := by omega
    have h1 : s / 3600 > 0 := by omega
    simp only [Youtube.format_duration, if_neg hs]
    rw [if_pos h1]

theorem C7_format_duration_mmss_hhmmss_witness :
    Youtube.format_duration 125 =
      Youtube.pad2 ((125 : Int) / 60) ++ ":" ++ Youtube.pad2 ((125 : Int) % 60) ∧
    Youtube.format_duration 3725 =
      Youtube.pad2 ((3725 : Int) / 3600) ++ ":" ++
        Youtube.pad2 (((3725 : Int) % 3600) / 60) ++ ":" ++
        Youtube.pad2 ((3725 : Int) % 60) :=
  ⟨C7_format_duration_mmss_hhmmss.2.2.1 125 (by decide) (by decide),
   C7_format_duration_mmss_hhmmss.2.2.2 3725 (by decide)⟩

/-- C3 (code bug): for `publishedTimeText = "3 days ago"`,
`parse_youtube_timestamp` returns the current time unshifted — the
`datetime.timedelta` attribute access in the `day` branch raises
`AttributeError` (the name `datetime` is the class imported from the
`datetime` module) and the bare `except:` returns `datetime.now()` — not
the claimed current time minus 3 days.  Indeed the function returns the
current time on every input. -/
theorem C3_parse_youtube_timestamp_never_subtracts :
    Youtube.parse_youtube_timestamp 1760000000 "3 days ago" = 1760000000 ∧
    Youtube.parse_youtube_timestamp 1760000000 "3 days ago" ≠ 1760000000 - 3 * 86400 ∧
    ∀ (now : Int) (t : String), Youtube.parse_youtube_timestamp now t = now := by
  refine ⟨rfl, by decide, ?_⟩
  intro now t
  unfold Youtube.parse_youtube_timestamp
  dsimp only
  split
  · rename_i v heq
    split_ifs at heq <;> simp_all
  · rfl

/-- C5 (code bug): an instagram item with neither `taken_at` nor
`device_timestamp` is emitted with `timestamp = datetime.fromtimestamp(0)`
— the 1970 epoch instant — because the absent key defaults to the integer
`0`, which passes the `isinstance` check (the instagram builder has no
positivity guard).  The claim requires the current time; by contrast the
facebook builder, whose guard does test `> 0`, emits the current time for
an absent timestamp. -/
theorem C5_instagram_timestamp_epoch_fallback :
    (Instagram.create_media_document 1760000000 (JVal.obj [])).lookup "timestamp" =
      some (.int 0) ∧
    (0 : Int) ≠ 1760000000 ∧
    (Facebook.create_post_document 1760000000 (JVal.obj [])).lookup "timestamp" =
      some (.int 1760000000) := by
  exact ⟨rfl, by decide, rfl⟩

/-- C6: for reactions `love = 40, like = 60` and a message with no emotion
keyword, facebook `detect_emotions` yields a duplicate-free list that
contains `love` (share 40% > 30%) and not `humor` (share 0%); and the
reaction-derived pass only ever adds to the text-keyword emotions. -/
theorem C6_facebook_reaction_emotions :
    Facebook.text_emotions "ok" = [] ∧
    "love" ∈ Facebook.detect_emotions "ok" (JVal.obj [("love", .int 40), ("like", .int 60)]) ∧
    "humor" ∉ Facebook.detect_emotions "ok" (JVal.obj [("love", .int 40), ("like", .int 60)]) ∧
    (Facebook.detect_emotions "ok" (JVal.obj [("love", .int 40), ("like", .int 60)])).Nodup ∧
    (∀ (text : String) (reactions : JVal) (e : String),
      e ∈ Facebook.text_emotions text → e ∈ Facebook.detect_emotions text reactions) := by
  refine ⟨by decide, by decide, by decide, by decide, ?_⟩
  intro text reactions e he
  exact List.mem_dedup.mpr (List.mem_append_left _ he)

theorem filterMap_if_guard {α β : Type} (p : α → Bool) (f : α → β) (l : List α) :
    l.filterMap (fun a => if !(p a) then none else some (f a)) = (l.filter p).map f := by
  induction l with
  | nil => rfl
  | cons x xs ih =>
    by_cases h : p x = true
    · rw [@List.filterMap_cons_some _ _ (fun a => if (!p a) = true then none else some (f a))
        x xs (f x) (by simp [h]), List.filter_cons, if_pos h, List.map_cons, ih]
    · have h2 : p x = false := by simpa using h
      rw [@List.filterMap_cons_none _ _ (fun a => if (!p a) = true then none else some (f a))
        x xs (by simp [h2]), List.filter_cons, if_neg h]
      exact ih

/-- C2: `create_tweet_document` returns no document exactly when the
tweet's `rest_id` is missing or empty (falsy), and `parse_twitter_json`
emits exactly one document, in order, for each remaining tweet of the
batch. -/
theorem C2_id_less_tweets_dropped :
    (∀ (now : Int) (tweet : JVal),
      Twitter.create_tweet_document now tweet = none ↔
        (tweet.getD "rest_id" (.str "")).truthy = false) ∧
    (∀ (now : Int) (data : JVal),
      Twitter.parse_twitter_json now data =
        ((Twitter.extract_tweets_from_timeline data).filter
          (fun tweet => (tweet.getD "rest_id" (.str "")).truthy)).map
          (Twitter.tweet_document now)) := by
  constructor
  · intro now tweet
    unfold Twitter.create_tweet_document
    by_cases h : (tweet.getD "rest_id" (.str "")).truthy <;> simp [h]
  · intro now data
    unfold Twitter.parse_twitter_json Twitter.create_tweet_document
    exact filterMap_if_guard _ _ _

theorem takeWhile_all_append (p : Char → Bool) :
    ∀ (l1 : List Char) (x : Char) (l2 : List Char),
      l1.all p = true → p x = false → (l1 ++ x :: l2).takeWhile p = l1 := by
  intro l1
  induction l1 with
  | nil =>
    intro x l2 _ hx
    simp [List.takeWhile_cons, hx]
  | cons a as ih =>
    intro x l2 hall hx
    simp only [List.all_cons, Bool.and_eq_true] at hall
    simp [List.cons_append, List.takeWhile_cons, hall.1, ih x l2 hall.2 hx]

theorem dropWhile_all_append (p : Char → Bool) :
    ∀ (l1 : List Char) (x : Char) (l2 : List Char),
      l1.all p = true → p x = false → (l1 ++ x :: l2).dropWhile p = x :: l2 := by
  intro l1
  induction l1 with
  | nil =>
    intro x l2 _ hx
    simp [List.dropWhile_cons, hx]
  | cons a as ih =>
    intro x l2 hall hx
    simp only [List.all_cons, Bool.and_eq_true] at hall
    simp [List.cons_append, List.dropWhile_cons, hall.1, ih x l2 hall.2 hx]

/-- Spec-side constructor for C9: one marker-prefixed word token per list
element, each followed by a space. -/
def renderTagged (c : Char) : List String → List Char
  | [] => []
  | w :: ws => c :: (w.data ++ ' ' :: renderTagged c ws)

theorem findTokens_renderTagged (c : Char) (hcw : isWordChar c = false) (hcs : c ≠ ' ') :
    ∀ ws : List String, (∀ w ∈ ws, w ≠ "" ∧ w.data.all isWordChar = true) →
      findTokens c (renderTagged c ws) = ws := by
  intro ws
  induction ws with
  | nil =>
    intro _
    rw [renderTagged, findTokens]
  | cons w ws ih =>
    intro hall
    obtain ⟨⟨hw, hwall⟩, hrest⟩ : (w ≠ "" ∧ w.data.all isWordChar = true) ∧ _ :=
      ⟨hall w (List.mem_cons_self w ws), fun v hv => hall v (List.mem_cons_of_mem w hv)⟩
    have hdata : w.data ≠ [] := by
      intro hd
      apply hw
      have : String.mk w.data = String.mk [] := by rw [hd]
      simpa using this
    have hsp : isWordChar ' ' = false := rfl
    cases hd : w.data with
    | nil => exact absurd hd hdata
    | cons r un =>
      have htail : findTokens c (' ' :: renderTagged c ws) = ws := by
        rw [findTokens, if_neg (Ne.symm hcs)]
        exact ih hrest
      show findTokens c (c :: (w.data ++ ' ' :: renderTagged c ws)) = w :: ws
      rw [findTokens, if_pos rfl,
        takeWhile_all_append isWordChar w.data ' ' (renderTagged c ws) hwall hsp,
        dropWhile_all_append isWordChar w.data ' ' (renderTagged c ws) hwall hsp, hd]
      dsimp only
      rw [htail]
      have hmk : String.mk (r :: un) = w := by rw [← hd]
      rw [hmk]

/-- C9: hashtag and mention extraction is a pure function of the content
(so two runs agree), and on a content string of marker-prefixed word
tokens it returns exactly those tokens: first-occurrence order, original
casing, duplicates preserved. -/
theorem C9_extraction_deterministic_order_preserving :
    (∀ t : String,
      Facebook.extract_hashtags t = Facebook.extract_hashtags t ∧
      Facebook.extract_mentions t = Facebook.extract_mentions t) ∧
    (∀ ws : List String, (∀ w ∈ ws, w ≠ "" ∧ w.data.all isWordChar = true) →
      Facebook.extract_hashtags (String.mk (renderTagged '#' ws)) = ws ∧
      Facebook.extract_mentions (String.mk (renderTagged '@' ws)) = ws) := by
  constructor
  · exact fun t => ⟨rfl, rfl⟩
  · intro ws hws
    constructor
    · cases ws with
      | nil => rfl
      | cons w ws =>
        unfold Facebook.extract_hashtags
        rw [renderTagged, if_neg (fun heq => List.noConfusion
          (show ('#' :: (w.data ++ ' ' :: renderTagged '#' ws)) = ([] : List Char) from
            congrArg String.data heq))]
        rw [← renderTagged]
        exact findTokens_renderTagged '#' rfl (by decide) _ hws
    · cases ws with
      | nil => rfl
      | cons w ws =>
        unfold Facebook.extract_mentions
        rw [renderTagged, if_neg (fun heq => List.noConfusion
          (show ('@' :: (w.data ++ ' ' :: renderTagged '@' ws)) = ([] : List Char) from
            congrArg String.data heq))]
        rw [← renderTagged]
        exact findTokens_renderTagged '@' rfl (by decide) _ hws

theorem C9_extraction_deterministic_order_preserving_witness :
    Facebook.extract_hashtags (String.mk (renderTagged '#' ["Foo", "Foo", "foo"])) =
      ["Foo", "Foo", "foo"] ∧
    Facebook.extract_mentions (String.mk (renderTagged '@' ["Foo", "Foo", "foo"])) =
      ["Foo", "Foo", "foo"] :=
  C9_extraction_deterministic_order_preserving.2 ["Foo", "Foo", "foo"] (by decide)

theorem forall_of_map {α β : Type} (f : α → β) (P : β → Prop) (l : List α)
    (h : ∀ a, P (f a)) : (l.map f).Forall P := by
  rw [List.forall_iff_forall_mem]
  intro b hb
  obtain ⟨a, -, rfl⟩ := List.mem_map.mp hb
  exact h a

theorem forall_of_filterMap {α β : Type} (f : α → Option β) (P : β → Prop) (l : List α)
    (h : ∀ a b, f a = some b → P b) : (l.filterMap f).Forall P := by
  rw [List.forall_iff_forall_mem]
  intro b hb
  obtain ⟨a, -, hfa⟩ := List.mem_filterMap.mp hb
  exact h a b hfa

/-- Spec side for C10: a flat canonical document — the canonical fields
are top-level keys and no Elasticsearch envelope key is present. -/
def flatDoc (d : JVal) : Prop :=
  (["platform", "platform_id", "content", "sentiment", "metrics"].all
    (fun k => d.keys.contains k)) = true ∧
  (["_index", "_id", "_score", "_source"].all
    (fun k => !(d.keys.contains k))) = true

/-- C10: every document of the tiktok parser is an Elasticsearch envelope
whose top-level keys are exactly `_index`, `_id`, `_score`, `_source`,
with the canonical fields nested under `_source`; every document of the
twitter, instagram, facebook and youtube parsers is flat: canonical
fields at top level and no envelope keys. -/
theorem C10_tiktok_envelope_others_flat :
    (∀ (now : Int) (data : JVal), (Tiktok.parse_tiktok_json now data).Forall fun d =>
      d.keys = ["_index", "_id", "_score", "_source"] ∧
      (["platform", "platform_id", "content", "sentiment", "metrics"].all
        (fun k => (d.getObj "_source").keys.contains k)) = true) ∧
    (∀ (now : Int) (data : JVal), (Twitter.parse_twitter_json now data).Forall flatDoc) ∧
    (∀ (now : Int) (data : JVal), (Instagram.parse_instagram_json now data).Forall flatDoc) ∧
    (∀ (now : Int) (data : JVal), (Facebook.parse_facebook_json now data).Forall flatDoc) ∧
    (∀ (now : Int) (data : JVal), (Youtube.parse_youtube_json now data).Forall flatDoc) := by
  refine ⟨?_, ?_, ?_, ?_, ?_⟩
  · intro now data
    exact forall_of_map _ _ _ fun v => ⟨rfl, rfl⟩
  · intro now data
    apply forall_of_filterMap _ _ _
    intro t d hd
    unfold Twitter.create_tweet_document at hd
    by_cases h : (t.getD "rest_id" (.str "")).truthy
    · simp only [h, Bool.not_true, Bool.false_eq_true, if_false, Option.some.injEq] at hd
      subst hd
      exact ⟨rfl, rfl⟩
    · simp [h] at hd
  · intro now data
    exact forall_of_map _ _ _ fun v => ⟨rfl, rfl⟩
  · intro now data
    exact forall_of_map _ _ _ fun v => ⟨rfl, rfl⟩
  · intro now data
    exact forall_of_map _ _ _ fun v => ⟨rfl, rfl⟩

theorem C6_facebook_reaction_emotions_witness :
    "humor" ∈ Facebook.detect_emotions "funny"
      (JVal.obj [("love", .int 40), ("like", .int 60)]) :=
  C6_facebook_reaction_emotions.2.2.2.2 "funny"
    (JVal.obj [("love", .int 40), ("like", .int 60)]) "humor" (by decide)

/-- Spec side for C4: the document's `language` field is the given
two-wordlist guess applied to the document's own `content` string. -/
def languageIsGuess (detect : String → String) (d : JVal) : Prop :=
  match d.lookup "content", d.lookup "language" with
  | some (.str content), some (.str lang) => lang = detect content
  | _, _ => False

theorem lang_guess_spec (f : String → String)
    (hempty : f "" = "unknown")
    (hshape : ∀ t, t ≠ "" → f t = "id" ∨ f t = "en" ∨ f t = "mixed") :
    ∀ t, f t ∈ (["unknown", "id", "en", "mixed"] : List String) ∧ (f t = "unknown" ↔ t = "") := by
  intro t
  by_cases h : t = ""
  · subst h
    simp [hempty]
  · rcases hshape t h with h1 | h1 | h1 <;> rw [h1] <;>
      exact ⟨by decide, ⟨fun hc => absurd hc (by decide), fun hc => absurd hc h⟩⟩

/-- C4 (counterexample): a tweet with raw `legacy.lang = "fr"` is emitted
with `language = "fr"`, which is not produced by the two-wordlist guess
and lies outside the claimed `{en, id, mixed, unknown}` enum — the
twitter builder copies the raw `lang` field instead of computing the
guess. -/
theorem C4_twitter_raw_lang_counterexample :
    Twitter.create_tweet_document 0
        (JVal.obj [("rest_id", .str "1"), ("legacy", JVal.obj [("lang", .str "fr")])]) =
      some (Twitter.tweet_document 0
        (JVal.obj [("rest_id", .str "1"), ("legacy", JVal.obj [("lang", .str "fr")])])) ∧
    (Twitter.tweet_document 0
        (JVal.obj [("rest_id", .str "1"), ("legacy", JVal.obj [("lang", .str "fr")])])).lookup
        "language" = some (.str "fr") ∧
    ¬("fr" ∈ (["en", "id", "mixed", "unknown"] : List String)) :=
  ⟨rfl, rfl, by decide⟩

/-- C4 (amended): facebook, tiktok (under `_source`) and youtube
documents carry `language` computed by their two-wordlist guess, whose
value is always one of `en, id, mixed, unknown` — `unknown` exactly on
empty content, and `id`/`en`/`mixed` by comparing the word-hit counts
otherwise; twitter documents instead carry the raw `legacy.lang` value
verbatim, and instagram documents have no `language` field at all. -/
theorem C4_language_per_platform :
    (∀ (now : Int) (data : JVal), (Facebook.parse_facebook_json now data).Forall
      (languageIsGuess Facebook.detect_language)) ∧
    (∀ (now : Int) (data : JVal), (Tiktok.parse_tiktok_json now data).Forall
      (fun d => languageIsGuess Tiktok.detect_language (d.getObj "_source"))) ∧
    (∀ (now : Int) (data : JVal), (Youtube.parse_youtube_json now data).Forall
      (languageIsGuess Youtube.detect_language)) ∧
    (∀ t, Facebook.detect_language t ∈ (["unknown", "id", "en", "mixed"] : List String) ∧
      (Facebook.detect_language t = "unknown" ↔ t = "")) ∧
    (∀ t, Tiktok.detect_language t ∈ (["unknown", "id", "en", "mixed"] : List String) ∧
      (Tiktok.detect_language t = "unknown" ↔ t = "")) ∧
    (∀ t, Youtube.detect_language t ∈ (["unknown", "id", "en", "mixed"] : List String) ∧
      (Youtube.detect_language t = "unknown" ↔ t = "")) ∧
    (∀ (now : Int) (tweet : JVal),
      (Twitter.tweet_document now tweet).lookup "language" =
        some ((tweet.getObj "legacy").getD "lang" (.str ""))) ∧
    (∀ (now : Int) (data : JVal), (Instagram.parse_instagram_json now data).Forall
      (fun d => d.lookup "language" = none)) := by
  refine ⟨?_, ?_, ?_, ?_, ?_, ?_, ?_, ?_⟩
  · intro now data
    exact forall_of_map _ _ _ fun v => rfl
  · intro now data
    exact forall_of_map _ _ _ fun v => rfl
  · intro now data
    exact forall_of_map _ _ _ fun v => rfl
  · refine lang_guess_spec _ rfl ?_
    intro t ht
    unfold Facebook.detect_language
    rw [if_neg ht]
    dsimp only
    split_ifs <;> simp
  · refine lang_guess_spec _ rfl ?_
    intro t ht
    unfold Tiktok.detect_language
    rw [if_neg ht]
    dsimp only
    split_ifs <;> simp
  · refine lang_guess_spec _ rfl ?_
    intro t ht
    unfold Youtube.detect_language
    rw [if_neg ht]
    dsimp only
    split_ifs <;> simp
  · intro now tweet
    rfl
  · intro now data
    exact forall_of_map _ _ _ fun v => rfl

theorem le_foldl_max (f : String → Int) :
    ∀ (ks : List String) (a : Int), a ≤ ks.foldl (fun acc y => max acc (f y)) a := by
  intro ks
  induction ks with
  | nil => intro a; exact le_refl a
  | cons x xs ih =>
    intro a
    rw [List.foldl_cons]
    exact le_trans (le_max_left a (f x)) (ih (max a (f x)))

theorem find?_max_eq_pyfold (f : String → Int) :
    ∀ (ks : List String) (b : String),
      List.find? (fun x => decide (f x = ks.foldl (fun acc y => max acc (f y)) (f b))) (b :: ks) =
        some (ks.foldl (fun best y => if f y > f best then y else best) b) := by
  intro ks
  induction ks with
  | nil =>
    intro b
    simp [List.find?]
  | cons x xs ih =>
    intro b
    rw [List.foldl_cons, List.foldl_cons]
    by_cases h : f x > f b
    · have hm : max (f b) (f x) = f x := by omega
      rw [hm, if_pos h]
      have hfb : ¬(f b = xs.foldl (fun acc y => max acc (f y)) (f x)) := by
        have := le_foldl_max f xs (f x)
        omega
      rw [List.find?_cons_of_neg _ (by simpa using hfb)]
      exact ih x
    · have hm : max (f b) (f x) = f b := by omega
      rw [hm, if_neg h]
      by_cases hb : f b = xs.foldl (fun acc y => max acc (f y)) (f b)
      · rw [List.find?_cons_of_pos _ (by simpa using hb)]
        have hih := ih b
        rw [List.find?_cons_of_pos _ (by simpa using hb)] at hih
        exact hih
      · rw [List.find?_cons_of_neg _ (by simpa using hb)]
        have hx : ¬(f x = xs.foldl (fun acc y => max acc (f y)) (f b)) := by
          have h1 := le_foldl_max f xs (f b)
          omega
        rw [List.find?_cons_of_neg _ (by simpa using hx)]
        have hih := ih b
        rw [List.find?_cons_of_neg _ (by simpa using hb)] at hih
        exact hih

/-- Spec side for C8: the first key in list order whose count equals the
maximum count. -/
def firstMaxKey (f : String → Int) : List String → Option String
  | [] => none
  | k :: ks =>
    List.find? (fun x => decide (f x = ks.foldl (fun acc y => max acc (f y)) (f k))) (k :: ks)

theorem pyMaxKeys_eq_firstMaxKey (f : String → Int) (l : List String) :
    pyMaxKeys f l = firstMaxKey f l := by
  cases l with
  | nil => rfl
  | cons k ks =>
    rw [pyMaxKeys, firstMaxKey, find?_max_eq_pyfold]

theorem platform_stats_entry_document_count (p : String) (docs : List JVal) :
    (platform_stats_entry p docs).document_count = docs.length := by
  cases docs <;> rfl

/-- C8: for a batch assembled in the registry insertion order
(twitter, instagram, tiktok, facebook, youtube) — the order
`parse_all_examples` always produces — `most_active_platform` is the
first platform in registry order whose document count attains the
maximum. -/
theorem C8_most_active_platform_first_max :
    ∀ (now : Int) (dt di dk df dy : List JVal),
      (generate_summary_report now
        [("twitter", dt), ("instagram", di), ("tiktok", dk), ("facebook", df),
         ("youtube", dy)]).most_active_platform =
      firstMaxKey
        (fun p => ((([("twitter", (dt.length : Int)), ("instagram", (di.length : Int)),
          ("tiktok", (dk.length : Int)), ("facebook", (df.length : Int)),
          ("youtube", (dy.length : Int))] : List (String × Int)).lookup p).getD 0))
        registryOrder := by
  intro now dt di dk df dy
  show pyMaxKeys _ registryOrder = _
  rw [pyMaxKeys_eq_firstMaxKey]
  congr 1
  funext p
  by_cases h1 : p = "twitter"
  · subst h1
    show ((platform_stats_entry "twitter" dt).document_count : Int) = ((dt.length : Int))
    rw [platform_stats_entry_document_count]
  by_cases h2 : p = "instagram"
  · subst h2
    show ((platform_stats_entry "instagram" di).document_count : Int) = ((di.length : Int))
    rw [platform_stats_entry_document_count]
  by_cases h3 : p = "tiktok"
  · subst h3
    show ((platform_stats_entry "tiktok" dk).document_count : Int) = ((dk.length : Int))
    rw [platform_stats_entry_document_count]
  by_cases h4 : p = "facebook"
  · subst h4
    show ((platform_stats_entry "facebook" df).document_count : Int) = ((df.length : Int))
    rw [platform_stats_entry_document_count]
  by_cases h5 : p = "youtube"
  · subst h5
    show ((platform_stats_entry "youtube" dy).document_count : Int) = ((dy.length : Int))
    rw [platform_stats_entry_document_count]
  · have e1 : (p == "twitter") = false := beq_eq_false_iff_ne.mpr h1
    have e2 : (p == "instagram") = false := beq_eq_false_iff_ne.mpr h2
    have e3 : (p == "tiktok") = false := beq_eq_false_iff_ne.mpr h3
    have e4 : (p == "facebook") = false := beq_eq_false_iff_ne.mpr h4
    have e5 : (p == "youtube") = false := beq_eq_false_iff_ne.mpr h5
    simp [List.lookup, e1, e2, e3, e4, e5]

/-- The concrete facebook post of the C1 evaluation: sentiment
`positive` (it contains `love`), language `mixed`, and counters
`reactions_count = 5`, `comments_count = 3`. -/
def c1post : JVal :=
  .obj [("post_id", .str "p1"), ("message", .str "i love this"),
        ("reactions_count", .int 5), ("comments_count", .int 3)]

/-- C1 (code bug): `generate_summary_report` reads every tallied field
from `doc.get('_source', {})`, but only tiktok documents carry a
`_source` envelope.  For a facebook batch of one document whose own
sentiment is `positive`, whose language is `mixed` and whose
platform-specific engagement counters sum to 8, the report tallies the
document as `neutral` / `unknown` with zero engagement — the
platform-specific counter sums of lines 168-177 can never see a flat
document's metrics.  A tiktok document with the same counters is tallied
from its own fields, confirming the envelope-only read. -/
theorem C1_summary_tallies_only_enveloped_docs :
    (Facebook.create_post_document 0 c1post).lookup "sentiment" = some (.str "positive") ∧
    (Facebook.create_post_document 0 c1post).lookup "language" = some (.str "mixed") ∧
    ((Facebook.create_post_document 0 c1post).getObj "metrics").getInt "reactions_count" 0 +
      ((Facebook.create_post_document 0 c1post).getObj "metrics").getInt "comments_count" 0 = 8 ∧
    ((generate_summary_report 0
        [("facebook", [Facebook.create_post_document 0 c1post])]).platforms.lookup
        "facebook").map
      (fun s => (s.sentiment_breakdown, s.language_breakdown, s.total_engagement)) =
      some ([("positive", 0), ("negative", 0), ("neutral", 1)], [("unknown", 1)], 0) ∧
    ((generate_summary_report 0
        [("tiktok", [Tiktok.create_video_document 0
          (JVal.obj [("id", .str "v1"),
            ("stats", .obj [("diggCount", .int 5), ("shareCount", .int 3)])])])]).platforms.lookup
        "tiktok").map
      (fun s => (s.sentiment_breakdown, s.total_engagement)) =
      some ([("positive", 0), ("negative", 0), ("neutral", 1)], 8) :=
  ⟨rfl, rfl, rfl, rfl, rfl⟩

end Socmed
